import Mathlib

/-!
Verification of the tile-acquisition engine of TileMapDownloader
(src/tile_downloader.py) against its natural-language specification.

The Python source is shallowly embedded:
* pure helpers become Lean functions;
* the filesystem and the effect trace (HTTP calls, sleeps, existence
  checks) become an explicit state record threaded through the code;
* one `session.get` call (which internally may retry per the urllib3
  `Retry` configuration of `create_session`) is abstracted as one query
  to a deterministic network oracle keyed by URL and attempt index;
* Python float arithmetic in the coordinate mapper is idealised as real
  arithmetic, with Python `int()` truncation made explicit.
-/

namespace TileMap

/-- A tile coordinate `(zoom, x, y)` as produced by `get_tiles_for_bbox`
and consumed by the download functions. -/
abbrev Tile := Nat × Int × Int

/-- One entry of the hard-coded server catalog: name, URL template with
z/x/y placeholders, and request headers. -/
structure Server where
  name : String
  url : String
  headers : List (String × String)
deriving DecidableEq

/-- The fixed server catalog `TILE_SERVERS` from src/tile_downloader.py. -/
def TILE_SERVERS : List Server := [
  { name := "CartoDB Light",
    url := "https://cartodb-basemaps-a.global.ssl.fastly.net/light_all/\x7bz\x7d/\x7bx\x7d/\x7by\x7d.png",
    headers := [("User-Agent", "Multi-Tile-Downloader/1.0")] },
  { name := "CartoDB Dark",
    url := "https://cartodb-basemaps-b.global.ssl.fastly.net/dark_all/\x7bz\x7d/\x7bx\x7d/\x7by\x7d.png",
    headers := [("User-Agent", "Multi-Tile-Downloader/1.0")] },
  { name := "Stamen Terrain",
    url := "https://stamen-tiles.a.ssl.fastly.net/terrain/\x7bz\x7d/\x7bx\x7d/\x7by\x7d.png",
    headers := [("User-Agent", "Multi-Tile-Downloader/1.0")] },
  { name := "Stamen Watercolor",
    url := "https://stamen-tiles.a.ssl.fastly.net/watercolor/\x7bz\x7d/\x7bx\x7d/\x7by\x7d.png",
    headers := [("User-Agent", "Multi-Tile-Downloader/1.0")] }]

/-- The configuration record consumed by the engine (the `regions`
mapping is used only by `download_region`'s tile enumeration and is not
needed by the per-tile functions modelled here). -/
structure Config where
  servers : List String
  output_dir : String
  retry_attempts : Nat
  timeout : Nat
  max_workers_per_server : Nat
deriving DecidableEq

/-- The urllib3 `Retry` configuration built by `create_session`. -/
structure RetryStrategy where
  total : Nat
  backoff_factor : ℚ
  status_forcelist : List Nat
  allowed_methods : List String
deriving DecidableEq

/-- The concrete retry strategy of `create_session`. -/
def retry_strategy : RetryStrategy :=
  { total := 3
  , backoff_factor := 1
  , status_forcelist := [429, 500, 502, 503, 504]
  , allowed_methods := ["GET"] }

/-- The opening-brace character of a URL-template placeholder. -/
def lbrace : Char := Char.ofNat 123

/-- The closing-brace character of a URL-template placeholder. -/
def rbrace : Char := Char.ofNat 125

/-- Substitute the z/x/y placeholders in a URL template, character by
character; embeds Python's `server['url'].format(z=..., x=..., y=...)`
for the placeholder-only templates of the catalog. -/
def subst (z x y : String) : Nat → List Char → List Char
  | 0, l => l
  | _, [] => []
  | fuel + 1, a :: rest =>
    if a = lbrace then
      match rest with
      | b :: c :: rest2 =>
        if c = rbrace then
          (if b = 'z' then z.data else if b = 'x' then x.data
           else if b = 'y' then y.data else [a, b, c]) ++ subst z x y fuel rest2
        else a :: subst z x y fuel rest
      | _ => a :: subst z x y fuel rest
    else a :: subst z x y fuel rest

/-- Build the tile URL from a server's template, as at line 109 of
src/tile_downloader.py.  (The fuel argument of `subst`, set to the
template length, only bounds the recursion; each step consumes at least
one character.) -/
def formatUrl (template : String) (zoom : Nat) (x y : Int) : String :=
  String.mk
    (subst (toString zoom) (toString x) (toString y) template.data.length template.data)

/-- The filesystem fragment the engine touches: the set of directories
that exist and the files with their byte content (most recent write
first). -/
structure FS where
  dirs : List String
  files : List (String × String)
deriving DecidableEq

/-- `os.path.exists` on a file path. -/
def fileExists (files : List (String × String)) (path : String) : Bool :=
  files.any (fun p => p.1 == path)

/-- `os.makedirs(path, exist_ok=True)`: create the directory if missing,
never fail when it already exists. -/
def mkdirs (fs : FS) (path : String) : FS :=
  if fs.dirs.contains path then fs else { fs with dirs := path :: fs.dirs }

/-- Outcome of one `session.get` (with its internal urllib3 retries)
as observed by `download_tile_from_server`: either a 2xx response body,
or a raised exception carrying the HTTP status (when one exists) and
the exception text. -/
inductive FetchResult where
  | success (content : String)
  | failure (status : Option Nat) (msg : String)
deriving DecidableEq

/-- A deterministic network oracle: the outcome of the `session.get`
for a given URL at a given (0-based) attempt index of the retry loop. -/
abbrev Net := String → Nat → FetchResult

/-- The state threaded through the embedded download functions: the
filesystem plus the observable effect traces — HTTP calls as
(server name, URL, attempt index), sleeps, and `os.path.exists` checks
on tile files.  Every sleep in the source is a multiple of half a
second (`time.sleep(0.5 * attempt)` and `time.sleep(1.0)`), so sleep
durations are recorded exactly as numbers of half-seconds:
`0.5 * attempt` seconds is logged as `attempt`, `1.0` second as `2`. -/
structure DlState where
  fs : FS
  calls : List (String × String × Nat)
  sleeps : List Nat
  checks : List String
deriving DecidableEq

/-- The empty initial state. -/
def initState : DlState := { fs := ⟨[], []⟩, calls := [], sleeps := [], checks := [] }

/-- The result string of `download_tile_from_server`, tagged by which
return statement produced it.  The code's later test
`"Downloaded:" in result or "Exists:" in result` distinguishes exactly
these tags, since the three return strings start with distinct markers. -/
inductive TileResult where
  | alreadyExists (msg : String)
  | downloaded (msg : String)
  | error (msg : String)
deriving DecidableEq

/-- The success test of `download_tile_multi_server`:
`"Downloaded:" in result or "Exists:" in result`. -/
def isSuccess : TileResult → Bool
  | .alreadyExists _ => true
  | .downloaded _ => true
  | .error _ => false

/-- The `{server}/{zoom}/{x}/{y}` fragment used in all result strings. -/
def tileTag (name : String) (tile : Tile) : String :=
  name ++ "/" ++ toString tile.1 ++ "/" ++ toString tile.2.1 ++ "/" ++ toString tile.2.2

/-- The directory `{output_dir}/{server}/{zoom}/{x}` created at lines
112-113 of src/tile_downloader.py. -/
def tileDir (output_dir : String) (server : Server) (tile : Tile) : String :=
  output_dir ++ "/" ++ server.name ++ "/" ++ toString tile.1 ++ "/" ++ toString tile.2.1

/-- The tile file path `{output_dir}/{server}/{zoom}/{x}/{y}.png`. -/
def tileFilename (output_dir : String) (server : Server) (tile : Tile) : String :=
  tileDir output_dir server tile ++ "/" ++ toString tile.2.2 ++ ".png"

/-- The retry loop of `download_tile_from_server` (lines 121-138):
for `attempt in range(retry_attempts)`, sleep `0.5 * attempt` before
every attempt but the first, issue the request, on success write the
file and return, on failure return the error if this was the final
attempt and otherwise sleep `1.0` and continue.  Falls through (Python
returns `None`) when `retry_attempts` is zero; `none` models that.
The first argument of the recursion is the number of loop iterations
still to run (`retry_attempts - attempt`); `download_tile_from_server`
starts it at `retry_attempts` with `attempt = 0`. -/
def attemptLoop (net : Net) (sname url fname tag : String) (retry_attempts : Nat) :
    Nat → Nat → DlState → Option TileResult × DlState
  | 0, _, s => (none, s)
  | remaining + 1, attempt, s =>
    let s1 := if 0 < attempt then { s with sleeps := s.sleeps ++ [attempt] } else s
    let s2 := { s1 with calls := s1.calls ++ [(sname, url, attempt)] }
    match net url attempt with
    | .success content =>
      (some (.downloaded ("Downloaded: " ++ tag)),
       { s2 with fs := { s2.fs with files := (fname, content) :: s2.fs.files } })
    | .failure _ e =>
      if attempt = retry_attempts - 1 then
        (some (.error ("Error: " ++ tag ++ " - " ++ e)), s2)
      else
        attemptLoop net sname url fname tag retry_attempts remaining (attempt + 1)
          { s2 with sleeps := s2.sleeps ++ [2] }

/-- `download_tile_from_server` (lines 106-138): build the URL, create
the directory structure, return early when the tile file exists,
otherwise run the retry loop.  The `timeout` is passed to `session.get`
inside the oracle and has no further observable effect here. -/
def download_tile_from_server (tile : Tile) (server : Server) (output_dir : String)
    (retry_attempts : Nat) (timeout : Nat) (net : Net) (s : DlState) :
    Option TileResult × DlState :=
  let _ := timeout
  let url := formatUrl server.url tile.1 tile.2.1 tile.2.2
  let dir := tileDir output_dir server tile
  let fname := tileFilename output_dir server tile
  let tag := tileTag server.name tile
  let s1 := { s with fs := mkdirs s.fs dir }
  let s2 := { s1 with checks := s1.checks ++ [fname] }
  if fileExists s2.fs.files fname then
    (some (.alreadyExists ("Exists: " ++ tag)), s2)
  else
    attemptLoop net server.name url fname tag retry_attempts retry_attempts 0 s2

/-- The result of `download_tile_multi_server`: a successful per-server
result, the generic all-failed string, or the `TypeError` Python raises
when `download_tile_from_server` returned `None`. -/
inductive MultiResult where
  | ok (r : TileResult)
  | allFailed (msg : String)
  | crashed
deriving DecidableEq

/-- The server loop of `download_tile_multi_server` (lines 148-160):
try each enabled server in order, return the first successful result,
fall through to the generic failure string. -/
def runServers (tile : Tile) (output_dir : String) (retry_attempts timeout : Nat)
    (net : Net) : List Server → DlState → MultiResult × DlState
  | [], s =>
    (.allFailed ("All servers failed: " ++ toString tile.1 ++ "/" ++
      toString tile.2.1 ++ "/" ++ toString tile.2.2), s)
  | server :: rest, s =>
    match download_tile_from_server tile server output_dir retry_attempts timeout net s with
    | (some r, s1) =>
      if isSuccess r then (.ok r, s1)
      else runServers tile output_dir retry_attempts timeout net rest s1
    | (none, s1) => (.crashed, s1)

/-- The enabled-server list of lines 145 and 165:
`[s for s in TILE_SERVERS if s['name'] in config['servers']]` — note it
iterates the catalog, not the configuration list. -/
def enabledServers (config : Config) : List Server :=
  TILE_SERVERS.filter (fun s => config.servers.contains s.name)

/-- `download_tile_multi_server` (lines 140-160). -/
def download_tile_multi_server (tile : Tile) (config : Config) (net : Net)
    (s : DlState) : MultiResult × DlState :=
  runServers tile config.output_dir config.retry_attempts config.timeout net
    (enabledServers config) s

/-- The worker-pool size computed at line 214:
`len(config['servers']) * config['max_workers_per_server']`. -/
def total_workers (config : Config) : Nat :=
  config.servers.length * config.max_workers_per_server

/-! ### Pure mirrors of the retry loop

`attemptLoop` only ever appends to the effect traces and pushes at most
one file, and its result does not depend on the incoming state.  The
following four functions compute, without threading any state, the
result, the calls made, the sleeps performed and the file written by
the loop; `attemptLoop_spec` proves the decomposition. -/

/-- The result of the retry loop, independent of the state. -/
def loopResult (net : Net) (url tag : String) (retry_attempts : Nat) :
    Nat → Nat → Option TileResult
  | 0, _ => none
  | fuel + 1, attempt =>
    match net url attempt with
    | .success _ => some (.downloaded ("Downloaded: " ++ tag))
    | .failure _ e =>
      if attempt = retry_attempts - 1 then
        some (.error ("Error: " ++ tag ++ " - " ++ e))
      else loopResult net url tag retry_attempts fuel (attempt + 1)

/-- The calls the retry loop makes. -/
def loopCalls (net : Net) (sname url : String) (retry_attempts : Nat) :
    Nat → Nat → List (String × String × Nat)
  | 0, _ => []
  | fuel + 1, attempt =>
    (sname, url, attempt) ::
      (match net url attempt with
       | .success _ => []
       | .failure _ _ =>
         if attempt = retry_attempts - 1 then []
         else loopCalls net sname url retry_attempts fuel (attempt + 1))

/-- The sleeps (in half-seconds) the retry loop performs. -/
def loopSleeps (net : Net) (url : String) (retry_attempts : Nat) :
    Nat → Nat → List Nat
  | 0, _ => []
  | fuel + 1, attempt =>
    (if 0 < attempt then [attempt] else []) ++
      (match net url attempt with
       | .success _ => []
       | .failure _ _ =>
         if attempt = retry_attempts - 1 then []
         else 2 :: loopSleeps net url retry_attempts fuel (attempt + 1))

/-- The file (path, content) the retry loop writes, when it succeeds. -/
def loopWrite (net : Net) (url fname : String) (retry_attempts : Nat) :
    Nat → Nat → Option (String × String)
  | 0, _ => none
  | fuel + 1, attempt =>
    match net url attempt with
    | .success content => some (fname, content)
    | .failure _ _ =>
      if attempt = retry_attempts - 1 then none
      else loopWrite net url fname retry_attempts fuel (attempt + 1)

/-- Prepend an optional file to a file list. -/
def pushFile (w : Option (String × String)) (files : List (String × String)) :
    List (String × String) :=
  match w with
  | some p => p :: files
  | none => files

/-! ### Pure mirrors of one whole `download_tile_from_server` call

Only the file list of the incoming filesystem influences the behaviour
(through the existence check), so these mirrors take just that list. -/

/-- The result of one `download_tile_from_server` call, as a function of
the file list it starts from. -/
def serverResult (tile : Tile) (server : Server) (output_dir : String)
    (retry_attempts : Nat) (net : Net) (files : List (String × String)) :
    Option TileResult :=
  if fileExists files (tileFilename output_dir server tile) then
    some (.alreadyExists ("Exists: " ++ tileTag server.name tile))
  else
    loopResult net (formatUrl server.url tile.1 tile.2.1 tile.2.2)
      (tileTag server.name tile) retry_attempts retry_attempts 0

/-- The calls one `download_tile_from_server` call makes. -/
def serverCalls (tile : Tile) (server : Server) (output_dir : String)
    (retry_attempts : Nat) (net : Net) (files : List (String × String)) :
    List (String × String × Nat) :=
  if fileExists files (tileFilename output_dir server tile) then []
  else
    loopCalls net server.name (formatUrl server.url tile.1 tile.2.1 tile.2.2)
      retry_attempts retry_attempts 0

/-- The sleeps one `download_tile_from_server` call performs. -/
def serverSleeps (tile : Tile) (server : Server) (output_dir : String)
    (retry_attempts : Nat) (net : Net) (files : List (String × String)) :
    List Nat :=
  if fileExists files (tileFilename output_dir server tile) then []
  else
    loopSleeps net (formatUrl server.url tile.1 tile.2.1 tile.2.2)
      retry_attempts retry_attempts 0

/-- The file one `download_tile_from_server` call writes, if any. -/
def serverWrite (tile : Tile) (server : Server) (output_dir : String)
    (retry_attempts : Nat) (net : Net) (files : List (String × String)) :
    Option (String × String) :=
  if fileExists files (tileFilename output_dir server tile) then none
  else
    loopWrite net (formatUrl server.url tile.1 tile.2.1 tile.2.2)
      (tileFilename output_dir server tile) retry_attempts retry_attempts 0

/-- Does a `session.get` outcome raise (any non-2xx status or
connection failure)? -/
def isFailure : FetchResult → Bool
  | .success _ => false
  | .failure _ _ => true

/-! ### Coordinate Mapper

Python float arithmetic is idealised as real arithmetic; Python's
`int()` (truncation toward zero) is `pyInt`.  These definitions are
necessarily noncomputable (they involve `Real.tan` and `Real.arsinh`);
concrete instances are evaluated through simp lemmas about the real
functions instead of kernel reduction. -/

/-- Python `int()`: truncation toward zero. -/
noncomputable def pyInt (r : ℝ) : ℤ := if 0 ≤ r then ⌊r⌋ else ⌈r⌉

/-- `deg2num` (lines 53-59 of src/tile_downloader.py): Web Mercator
projection of a latitude/longitude pair to tile indices at a zoom
level. -/
noncomputable def deg2num (lat_deg lon_deg : ℝ) (zoom : ℕ) : ℤ × ℤ :=
  let lat_rad := lat_deg * Real.pi / 180
  let n : ℝ := 2 ^ zoom
  (pyInt ((lon_deg + 180) / 360 * n),
   pyInt ((1 - Real.arsinh (Real.tan lat_rad) / Real.pi) / 2 * n))

/-- The Web Mercator latitude limit in degrees,
`arctan (sinh π) · 180 / π ≈ 85.051`. -/
noncomputable def maxMercatorLat : ℝ :=
  Real.arctan (Real.sinh Real.pi) * 180 / Real.pi

/-- Python `range(a, b + 1)` over integers, as a list. -/
def intRange (a b : ℤ) : List ℤ :=
  (List.range (b + 1 - a).toNat).map (fun (i : Nat) => a + (i : ℤ))

/-- `get_tiles_for_bbox` (lines 61-80): for each zoom level from
`min_zoom` to `max_zoom` inclusive, project the two bbox corners
(`min_x, max_y = deg2num(min_lat, min_lon, zoom)` and
`max_x, min_y = deg2num(max_lat, max_lon, zoom)`) and emit every
`(zoom, x, y)` with `x` in `range(min_x, max_x + 1)` (outer loop) and
`y` in `range(min_y, max_y + 1)` (inner loop), appended in loop order.
The bbox is `(min_lon, min_lat, max_lon, max_lat)` as at line 64. -/
noncomputable def get_tiles_for_bbox (bbox : ℝ × ℝ × ℝ × ℝ)
    (min_zoom max_zoom : ℕ) : List (ℕ × ℤ × ℤ) :=
  let min_lon := bbox.1
  let min_lat := bbox.2.1
  let max_lon := bbox.2.2.1
  let max_lat := bbox.2.2.2
  (List.range' min_zoom (max_zoom + 1 - min_zoom)).flatMap (fun zoom =>
    let p1 := deg2num min_lat min_lon zoom
    let p2 := deg2num max_lat max_lon zoom
    (intRange p1.1 p2.1).flatMap (fun x =>
      (intRange p2.2 p1.2).map (fun y => (zoom, x, y))))

/-- Lexicographic order on tiles: zoom, then x, then y. -/
def tileLt (a b : ℕ × ℤ × ℤ) : Prop :=
  a.1 < b.1 ∨ (a.1 = b.1 ∧ (a.2.1 < b.2.1 ∨ (a.2.1 = b.2.1 ∧ a.2.2 < b.2.2)))

/-! ### Concrete fixtures used by counterexamples and witnesses -/

/-- The first catalog server. -/
def cartoLight : Server := TILE_SERVERS.get ⟨0, by decide⟩

/-- The third catalog server. -/
def stamenTerrain : Server := TILE_SERVERS.get ⟨2, by decide⟩

/-- A network where every request raises a connection-level error. -/
def netBoom : Net := fun _ _ => .failure none "boom"

/-- A network where every request comes back with HTTP status 404. -/
def net404 : Net := fun _ _ => .failure (some 404) "404 Client Error"

/-- A network where every request succeeds with a fixed payload. -/
def netOk : Net := fun _ _ => .success "IMG"

/-- A network where only the Stamen Terrain URL of tile (10,1,2)
succeeds and every other request fails. -/
def netAB : Net := fun url _ =>
  if url = formatUrl stamenTerrain.url 10 1 2 then .success "IMG"
  else .failure none "down"

/-- A configuration enabling no server at all. -/
def cfgNone : Config :=
  { servers := [], output_dir := "t", retry_attempts := 3, timeout := 30,
    max_workers_per_server := 5 }

/-- A configuration enabling only CartoDB Light, one attempt per server. -/
def cfgOne : Config :=
  { servers := ["CartoDB Light"], output_dir := "t", retry_attempts := 1,
    timeout := 30, max_workers_per_server := 2 }

/-- A configuration listing Stamen Terrain BEFORE CartoDB Light, the
reverse of their catalog order. -/
def cfgRev : Config :=
  { servers := ["Stamen Terrain", "CartoDB Light"], output_dir := "t",
    retry_attempts := 1, timeout := 30, max_workers_per_server := 2 }

/-- A configuration whose single server name matches no catalog entry. -/
def cfgGhost : Config :=
  { servers := ["No Such Server"], output_dir := "t", retry_attempts := 3,
    timeout := 30, max_workers_per_server := 2 }

/-- A configuration with two resolvable, distinct server names. -/
def cfgTwo : Config :=
  { servers := ["CartoDB Light", "Stamen Terrain"], output_dir := "t",
    retry_attempts := 1, timeout := 30, max_workers_per_server := 5 }

/-- State decomposition of the retry loop: the result is state-independent
and the state evolves by appending the traces and pushing the written
file. -/
theorem attemptLoop_spec (net : Net) (sname url fname tag : String)
    (ra : Nat) : ∀ (fuel attempt : Nat) (s : DlState),
    attemptLoop net sname url fname tag ra fuel attempt s =
      (loopResult net url tag ra fuel attempt,
       { fs := { dirs := s.fs.dirs,
                 files := pushFile (loopWrite net url fname ra fuel attempt) s.fs.files },
         calls := s.calls ++ loopCalls net sname url ra fuel attempt,
         sleeps := s.sleeps ++ loopSleeps net url ra fuel attempt,
         checks := s.checks }) := by
  intro fuel
  induction fuel with
  | zero =>
    intro attempt s
    simp [attemptLoop, loopResult, loopCalls, loopSleeps, loopWrite, pushFile]
  | succ fuel ih =>
    intro attempt s
    simp only [attemptLoop, loopResult, loopCalls, loopSleeps, loopWrite]
    cases h : net url attempt with
    | success content =>
      by_cases h0 : 0 < attempt <;>
        simp [h0, pushFile, List.append_assoc]
    | failure st e =>
      by_cases hfin : attempt = ra - 1
      · by_cases h0 : 0 < attempt <;>
          simp [h0, hfin, pushFile, List.append_assoc] <;>
          split <;> simp
      · by_cases h0 : 0 < attempt <;>
          simp [h0, hfin, ih, pushFile, List.append_assoc]

/-- State decomposition of `download_tile_from_server`: it creates the
tile directory, records one existence check, and otherwise behaves as
the pure mirrors dictate. -/
theorem download_spec (tile : Tile) (server : Server) (output_dir : String)
    (ra timeout : Nat) (net : Net) (s : DlState) :
    download_tile_from_server tile server output_dir ra timeout net s =
      (serverResult tile server output_dir ra net s.fs.files,
       { fs := { dirs := (mkdirs s.fs (tileDir output_dir server tile)).dirs,
                 files := pushFile (serverWrite tile server output_dir ra net s.fs.files)
                   s.fs.files },
         calls := s.calls ++ serverCalls tile server output_dir ra net s.fs.files,
         sleeps := s.sleeps ++ serverSleeps tile server output_dir ra net s.fs.files,
         checks := s.checks ++ [tileFilename output_dir server tile] }) := by
  simp only [download_tile_from_server, serverResult, serverCalls, serverSleeps,
    serverWrite, mkdirs]
  by_cases hd : tileDir output_dir server tile ∈ s.fs.dirs <;>
    by_cases hex : fileExists s.fs.files (tileFilename output_dir server tile) <;>
      simp [hd, hex, attemptLoop_spec, pushFile]

/-- A loop that ends in an error never wrote the tile file. -/
theorem loopWrite_eq_none_of_error (net : Net) (url tag fname : String) (ra : Nat) :
    ∀ (fuel attempt : Nat) (m : String),
    loopResult net url tag ra fuel attempt = some (.error m) →
    loopWrite net url fname ra fuel attempt = none := by
  intro fuel
  induction fuel with
  | zero => intro attempt m h; simp [loopResult] at h
  | succ fuel ih =>
    intro attempt m h
    simp only [loopResult] at h
    simp only [loopWrite]
    cases hnet : net url attempt with
    | success content => rw [hnet] at h; simp at h
    | failure st e =>
      rw [hnet] at h
      by_cases hfin : attempt = ra - 1
      · simp [hfin]
      · simp only [hfin, if_false] at h ⊢
        exact ih (attempt + 1) m h

/-- When every attempt of the loop fails, the loop returns an error,
makes exactly `fuel` calls, and sleeps `1.0` second after each failed
non-final attempt plus `0.5 × k` seconds at the start of attempt `k`
(durations in half-seconds). -/
theorem loop_allfail (net : Net) (sname url tag : String) (ra : Nat)
    (hfail : ∀ t, t < ra → isFailure (net url t) = true) :
    ∀ (fuel attempt : Nat), fuel + attempt = ra → 0 < fuel →
    (∃ m, loopResult net url tag ra fuel attempt = some (.error m)) ∧
    (loopCalls net sname url ra fuel attempt).length = fuel ∧
    loopSleeps net url ra fuel attempt =
      (if 0 < attempt then [attempt] else []) ++
        ((List.range' (attempt + 1) (fuel - 1)).map (fun k => [2, k])).join := by
  intro fuel
  induction fuel with
  | zero => intro attempt _ h0; omega
  | succ fuel ih =>
    intro attempt hra _
    have hlt : attempt < ra := by omega
    have hf := hfail attempt hlt
    cases hnet : net url attempt with
    | success content => rw [hnet] at hf; simp [isFailure] at hf
    | failure st e =>
      by_cases hfin : attempt = ra - 1
      · have hfuel : fuel = 0 := by omega
        subst hfuel
        subst hfin
        refine ⟨⟨"Error: " ++ tag ++ " - " ++ e, ?_⟩, ?_, ?_⟩
        · simp [loopResult, hnet]
        · simp [loopCalls, hnet]
        · simp [loopSleeps, hnet]
      · have hfuel : 0 < fuel := by omega
        obtain ⟨⟨m, hres⟩, hcalls, hsleeps⟩ := ih (attempt + 1) (by omega) hfuel
        refine ⟨⟨m, ?_⟩, ?_, ?_⟩
        · simp [loopResult, hnet, hfin, hres]
        · simp [loopCalls, hnet, hfin, hcalls]
        · have hrange : List.range' (attempt + 1) fuel =
              (attempt + 1) :: List.range' (attempt + 2) (fuel - 1) := by
            have h1 : fuel = (fuel - 1) + 1 := by omega
            conv_lhs => rw [h1]
            rw [List.range'_succ]
          simp [loopSleeps, hnet, hfin, hsleeps, hrange, hfuel]

/-- A `download_tile_from_server` call that returns an error leaves the
file list unchanged. -/
theorem download_files_of_error (tile : Tile) (server : Server) (output_dir : String)
    (ra timeout : Nat) (net : Net) (s : DlState) (m : String)
    (h : (download_tile_from_server tile server output_dir ra timeout net s).1 =
      some (.error m)) :
    (download_tile_from_server tile server output_dir ra timeout net s).2.fs.files =
      s.fs.files := by
  rw [download_spec] at h ⊢
  simp only at h ⊢
  unfold serverResult at h
  unfold serverWrite
  by_cases hex : fileExists s.fs.files (tileFilename output_dir server tile)
  · rw [if_pos hex] at h; simp at h
  · rw [if_neg hex] at h
    rw [if_neg hex]
    rw [loopWrite_eq_none_of_error net _ _ _ ra ra 0 m h]
    simp [pushFile]

/-- If every server in the list fails, `runServers` falls through to the
generic failure string, makes the calls of every server in list order,
and leaves the file list unchanged. -/
theorem runServers_allfail (tile : Tile) (output_dir : String) (ra timeout : Nat)
    (net : Net) : ∀ (l : List Server) (s : DlState),
    (∀ sv ∈ l, ∃ m, serverResult tile sv output_dir ra net s.fs.files =
      some (.error m)) →
    (runServers tile output_dir ra timeout net l s).1 =
      .allFailed ("All servers failed: " ++ toString tile.1 ++ "/" ++
        toString tile.2.1 ++ "/" ++ toString tile.2.2) ∧
    (runServers tile output_dir ra timeout net l s).2.calls =
      s.calls ++
        (l.map (fun sv => serverCalls tile sv output_dir ra net s.fs.files)).join ∧
    (runServers tile output_dir ra timeout net l s).2.fs.files = s.fs.files := by
  intro l
  induction l with
  | nil => intro s h; simp [runServers]
  | cons sv rest ih =>
    intro s h
    obtain ⟨m, hm⟩ := h sv (List.mem_cons_self sv rest)
    have hfst : (download_tile_from_server tile sv output_dir ra timeout net s).1 =
        some (.error m) := by
      rw [download_spec]; simpa using hm
    have hfiles := download_files_of_error tile sv output_dir ra timeout net s m hfst
    have hstep : download_tile_from_server tile sv output_dir ra timeout net s =
        (some (.error m), (download_tile_from_server tile sv output_dir ra timeout net s).2) := by
      rw [Prod.ext_iff]; exact ⟨hfst, rfl⟩
    have hrest : ∀ u ∈ rest, ∃ m2, serverResult tile u output_dir ra net
        ((download_tile_from_server tile sv output_dir ra timeout net s).2).fs.files =
        some (.error m2) := by
      intro u hu
      rw [hfiles]
      exact h u (List.mem_cons_of_mem sv hu)
    obtain ⟨ih1, ih2, ih3⟩ :=
      ih ((download_tile_from_server tile sv output_dir ra timeout net s).2) hrest
    have hcalls : ((download_tile_from_server tile sv output_dir ra timeout net s).2).calls =
        s.calls ++ serverCalls tile sv output_dir ra net s.fs.files := by
      rw [download_spec]
    refine ⟨?_, ?_, ?_⟩
    · simp only [runServers]
      rw [hstep]
      simpa [isSuccess] using ih1
    · simp only [runServers]
      rw [hstep]
      simp only [isSuccess, if_neg (by decide : ¬(false = true))]
      rw [ih2, hcalls, hfiles]
      simp [List.append_assoc]
    · simp only [runServers]
      rw [hstep]
      simp only [isSuccess, if_neg (by decide : ¬(false = true))]
      rw [ih3, hfiles]

/-- If every server before `sv` fails and `sv`'s download succeeds,
`runServers` returns `sv`'s result and makes exactly the calls of the
failing prefix followed by `sv`'s calls — servers after `sv` are never
attempted. -/
theorem runServers_first_success (tile : Tile) (output_dir : String)
    (ra timeout : Nat) (net : Net) :
    ∀ (l1 : List Server) (sv : Server) (l2 : List Server) (s : DlState) (r : TileResult),
    (∀ u ∈ l1, ∃ m, serverResult tile u output_dir ra net s.fs.files =
      some (.error m)) →
    serverResult tile sv output_dir ra net s.fs.files = some r →
    isSuccess r = true →
    (runServers tile output_dir ra timeout net (l1 ++ sv :: l2) s).1 = .ok r ∧
    (runServers tile output_dir ra timeout net (l1 ++ sv :: l2) s).2.calls =
      s.calls ++
        (l1.map (fun u => serverCalls tile u output_dir ra net s.fs.files)).join ++
        serverCalls tile sv output_dir ra net s.fs.files := by
  intro l1
  induction l1 with
  | nil =>
    intro sv l2 s r hpre hsv hsucc
    have hfst : (download_tile_from_server tile sv output_dir ra timeout net s).1 =
        some r := by
      rw [download_spec]; simpa using hsv
    have hstep : download_tile_from_server tile sv output_dir ra timeout net s =
        (some r, (download_tile_from_server tile sv output_dir ra timeout net s).2) := by
      rw [Prod.ext_iff]; exact ⟨hfst, rfl⟩
    have hcalls : ((download_tile_from_server tile sv output_dir ra timeout net s).2).calls =
        s.calls ++ serverCalls tile sv output_dir ra net s.fs.files := by
      rw [download_spec]
    constructor
    · simp only [List.nil_append, runServers]
      rw [hstep]
      simp [hsucc]
    · simp only [List.nil_append, runServers]
      rw [hstep]
      simp [hsucc, hcalls]
  | cons u rest ih =>
    intro sv l2 s r hpre hsv hsucc
    obtain ⟨m, hm⟩ := hpre u (List.mem_cons_self u rest)
    have hfst : (download_tile_from_server tile u output_dir ra timeout net s).1 =
        some (.error m) := by
      rw [download_spec]; simpa using hm
    have hfiles := download_files_of_error tile u output_dir ra timeout net s m hfst
    have hstep : download_tile_from_server tile u output_dir ra timeout net s =
        (some (.error m), (download_tile_from_server tile u output_dir ra timeout net s).2) := by
      rw [Prod.ext_iff]; exact ⟨hfst, rfl⟩
    have hcalls : ((download_tile_from_server tile u output_dir ra timeout net s).2).calls =
        s.calls ++ serverCalls tile u output_dir ra net s.fs.files := by
      rw [download_spec]
    obtain ⟨ih1, ih2⟩ := ih sv l2
      ((download_tile_from_server tile u output_dir ra timeout net s).2) r
      (by intro v hv; rw [hfiles]; exact hpre v (List.mem_cons_of_mem u hv))
      (by rw [hfiles]; exact hsv) hsucc
    constructor
    · simp only [List.cons_append, runServers]
      rw [hstep]
      simp only [isSuccess, if_neg (by decide : ¬(false = true))]
      exact ih1
    · simp only [List.cons_append, runServers]
      rw [hstep]
      simp only [isSuccess, if_neg (by decide : ¬(false = true)), List.append_eq]
      rw [ih2, hcalls, hfiles]
      simp [List.append_assoc]

/-! ### Helper lemmas for the Coordinate Mapper claims -/

/-- The Mercator latitude limit is positive. -/
theorem maxMercatorLat_pos : 0 < maxMercatorLat := by
  have h1 : (0:ℝ) < Real.sinh Real.pi := by positivity
  have h2 : 0 < Real.arctan (Real.sinh Real.pi) := by
    have := Real.arctan_strictMono h1
    rwa [Real.arctan_zero] at this
  have hpi := Real.pi_pos
  unfold maxMercatorLat
  positivity

/-- Membership in `intRange`. -/
theorem intRange_mem (a b x : ℤ) : x ∈ intRange a b ↔ a ≤ x ∧ x ≤ b := by
  unfold intRange
  rw [List.mem_map]
  constructor
  · rintro ⟨i, hi, rfl⟩
    rw [List.mem_range] at hi
    omega
  · rintro ⟨h1, h2⟩
    refine ⟨(x - a).toNat, ?_, ?_⟩
    · rw [List.mem_range]; omega
    · omega

/-- Length of `intRange`. -/
theorem intRange_length (a b : ℤ) : (intRange a b).length = (b + 1 - a).toNat := by
  simp [intRange]

/-- `intRange` is strictly increasing. -/
theorem intRange_pairwise (a b : ℤ) : List.Pairwise (· < ·) (intRange a b) := by
  unfold intRange
  refine List.Pairwise.map _ ?_ (List.pairwise_lt_range _)
  intro i j hij
  omega

/-- `flatMap` preserves pairwise orders that hold inside each block and
across blocks. -/
theorem pairwise_flatMap {α β : Type} {R : β → β → Prop} (f : α → List β) :
    ∀ (l : List α), (∀ a ∈ l, (f a).Pairwise R) →
    List.Pairwise (fun a a2 => ∀ b ∈ f a, ∀ b2 ∈ f a2, R b b2) l →
    (l.flatMap f).Pairwise R := by
  intro l
  induction l with
  | nil => intro _ _; simp
  | cons a t ih =>
    intro h1 h2
    rw [List.flatMap_cons, List.pairwise_append]
    rw [List.pairwise_cons] at h2
    refine ⟨h1 a (List.mem_cons_self a t),
      ih (fun u hu => h1 u (List.mem_cons_of_mem a hu)) h2.2, ?_⟩
    intro b hb b2 hb2
    obtain ⟨u, hu, hbu⟩ := List.mem_flatMap.mp hb2
    exact h2.1 u hu b hb b2 hbu

/-- `countP` distributes over `flatMap`. -/
theorem countP_flatMap {α β : Type} (f : α → List β) (p : β → Bool) :
    ∀ l : List α, (l.flatMap f).countP p = (l.map (fun a => (f a).countP p)).sum := by
  intro l
  induction l with
  | nil => rfl
  | cons a t ih => simp [List.flatMap_cons, List.countP_append, ih]

/-- Sum of a map that vanishes off a single element of a
duplicate-free list. -/
theorem sum_map_single {l : List ℕ} (g : ℕ → ℕ) (z : ℕ) :
    l.Nodup → z ∈ l → (∀ u ∈ l, u ≠ z → g u = 0) → (l.map g).sum = g z := by
  induction l with
  | nil => intro _ h; simp at h
  | cons a t ih =>
    intro hnodup hz h0
    rw [List.nodup_cons] at hnodup
    rcases List.mem_cons.mp hz with rfl | hzt
    · have hzero : ∀ x ∈ t.map g, x = 0 := by
        intro x hx
        obtain ⟨u, hu, rfl⟩ := List.mem_map.mp hx
        exact h0 u (List.mem_cons_of_mem _ hu) (fun he => hnodup.1 (he ▸ hu))
      simp [List.sum_eq_zero hzero]
    · have ha0 : g a = 0 :=
        h0 a (List.mem_cons_self a t) (fun he => hnodup.1 (he ▸ hzt))
      simp [ha0, ih hnodup.2 hzt
        (fun u hu hne => h0 u (List.mem_cons_of_mem _ hu) hne)]

/-- Sum of a constant map. -/
theorem sum_map_const {α : Type} (l : List α) (k : ℕ) :
    (l.map (fun _ => k)).sum = l.length * k := by
  induction l with
  | nil => simp
  | cons a t ih => simp [ih, Nat.succ_mul, Nat.add_comm]

/-- Length of a `flatMap`. -/
theorem length_flatMap {α β : Type} (f : α → List β) :
    ∀ l : List α, (l.flatMap f).length = (l.map (fun a => (f a).length)).sum := by
  intro l
  induction l with
  | nil => rfl
  | cons a t ih => simp [List.flatMap_cons, ih]

/-! ### C1 — fallback order -/

/-- C1 counterexample: the claim says servers are attempted in the exact
order of the configuration's server list.  With the configuration
listing Stamen Terrain first and CartoDB Light second, and every request
failing, the call trace starts with CartoDB Light: the loop at line 145
iterates `TILE_SERVERS` (catalog order) and merely filters by membership
in `config['servers']`, so the configured order is ignored. -/
theorem c1_counterexample :
    cfgRev.servers = ["Stamen Terrain", "CartoDB Light"] ∧
    ((download_tile_multi_server (10, 1, 2) cfgRev netBoom initState).2.calls.map
      (fun c => c.1)) = ["CartoDB Light", "Stamen Terrain"] := by
  decide

/-- C1 amended: servers are attempted in the order they appear in the
hard-coded `TILE_SERVERS` catalog (filtered to the configured names),
not in the order of the configuration's list; the first server whose
download succeeds determines the outcome, and the call trace ends with
that server's calls — no later server is attempted. -/
theorem c1_amended (tile : Tile) (cfg : Config) (net : Net) (s : DlState)
    (l1 : List Server) (sv : Server) (l2 : List Server) (r : TileResult)
    (hsplit : enabledServers cfg = l1 ++ sv :: l2)
    (hpre : ∀ u ∈ l1, ∃ m, serverResult tile u cfg.output_dir cfg.retry_attempts
      net s.fs.files = some (.error m))
    (hsv : serverResult tile sv cfg.output_dir cfg.retry_attempts net s.fs.files =
      some r)
    (hr : isSuccess r = true) :
    (download_tile_multi_server tile cfg net s).1 = .ok r ∧
    (download_tile_multi_server tile cfg net s).2.calls =
      s.calls ++
        (l1.map (fun u => serverCalls tile u cfg.output_dir cfg.retry_attempts
          net s.fs.files)).join ++
        serverCalls tile sv cfg.output_dir cfg.retry_attempts net s.fs.files := by
  simp only [download_tile_multi_server, hsplit]
  exact runServers_first_success tile cfg.output_dir cfg.retry_attempts cfg.timeout
    net l1 sv l2 s r hpre hsv hr

/-- C1 amended, witnessed at a concrete input: with both servers enabled
(configured in reverse catalog order) and a network answering every
request, the resolver returns CartoDB Light's download and calls only
CartoDB Light. -/
theorem c1_witness :
    (download_tile_multi_server (10, 1, 2) cfgRev netOk initState).1 =
      .ok (.downloaded "Downloaded: CartoDB Light/10/1/2") ∧
    (download_tile_multi_server (10, 1, 2) cfgRev netOk initState).2.calls =
      initState.calls ++
        (([] : List Server).map (fun u => serverCalls (10, 1, 2) u cfgRev.output_dir
          cfgRev.retry_attempts netOk initState.fs.files)).join ++
        serverCalls (10, 1, 2) cartoLight cfgRev.output_dir cfgRev.retry_attempts
          netOk initState.fs.files :=
  c1_amended (10, 1, 2) cfgRev netOk initState [] cartoLight [stamenTerrain]
    (.downloaded "Downloaded: CartoDB Light/10/1/2")
    (by decide)
    (by intro u hu; exact absurd hu (List.not_mem_nil u))
    (by decide) (by decide)

/-! ### C2 — permanent errors and retries -/

/-- C2 counterexample: the claim says a failure with a non-2xx status
other than 429/500/502/503/504 (here 404) is not retried against the
same server.  With `retry_attempts = 2` and every request answered 404,
`download_tile_from_server` issues 2 `session.get` calls, not 1: the
`except Exception` handler at line 135 retries every failure alike. -/
theorem c2_counterexample :
    (404 ∉ retry_strategy.status_forcelist) ∧
    ¬ (200 ≤ 404 ∧ 404 < 300) ∧
    ((download_tile_from_server (10, 1, 2) cartoLight "t" 2 30 net404
      initState).2.calls).length = 2 ∧
    (2 : Nat) ≠ 1 := by
  decide

/-- C2 amended: a failure with a non-2xx status outside the
`status_forcelist` of `create_session` is retried exactly like a
transient one — with every attempt failing with such a status, the
per-server loop makes all `retry_attempts` calls and returns an error,
after which the Fallback Resolver proceeds to the next server. -/
theorem c2_amended (tile : Tile) (sv : Server) (rest : List Server)
    (output_dir : String) (ra timeout : Nat) (net : Net) (s : DlState)
    (status : Nat)
    (hra : 0 < ra)
    (hex : fileExists s.fs.files (tileFilename output_dir sv tile) = false)
    (hst : status ∉ retry_strategy.status_forcelist)
    (h2xx : ¬ (200 ≤ status ∧ status < 300))
    (hfail : ∀ t, t < ra → ∃ m, net (formatUrl sv.url tile.1 tile.2.1 tile.2.2) t =
      .failure (some status) m) :
    (∃ m, (download_tile_from_server tile sv output_dir ra timeout net s).1 =
      some (.error m)) ∧
    ((download_tile_from_server tile sv output_dir ra timeout net s).2.calls).length =
      s.calls.length + ra ∧
    runServers tile output_dir ra timeout net (sv :: rest) s =
      runServers tile output_dir ra timeout net rest
        (download_tile_from_server tile sv output_dir ra timeout net s).2 := by
  have hfailB : ∀ t, t < ra →
      isFailure (net (formatUrl sv.url tile.1 tile.2.1 tile.2.2) t) = true := by
    intro t ht
    obtain ⟨m, hm⟩ := hfail t ht
    rw [hm]; rfl
  obtain ⟨⟨m, hres⟩, hcalls, -⟩ :=
    loop_allfail net sv.name (formatUrl sv.url tile.1 tile.2.1 tile.2.2)
      (tileTag sv.name tile) ra hfailB ra 0 (by omega) hra
  have hfst : (download_tile_from_server tile sv output_dir ra timeout net s).1 =
      some (.error m) := by
    rw [download_spec]
    simpa [serverResult, hex] using hres
  refine ⟨⟨m, hfst⟩, ?_, ?_⟩
  · rw [download_spec]
    simp [serverCalls, hex, hcalls]
  · have hstep : download_tile_from_server tile sv output_dir ra timeout net s =
        (some (.error m),
          (download_tile_from_server tile sv output_dir ra timeout net s).2) := by
      rw [Prod.ext_iff]; exact ⟨hfst, rfl⟩
    simp only [runServers]
    rw [hstep]
    simp [isSuccess]

/-- C2 amended, witnessed at a concrete input: CartoDB Light answered
404 on both of its 2 attempts, and the resolver moves on to Stamen
Terrain. -/
theorem c2_witness :
    (∃ m, (download_tile_from_server (10, 1, 2) cartoLight "t" 2 30 net404
      initState).1 = some (.error m)) ∧
    ((download_tile_from_server (10, 1, 2) cartoLight "t" 2 30 net404
      initState).2.calls).length = initState.calls.length + 2 ∧
    runServers (10, 1, 2) "t" 2 30 net404 [cartoLight, stamenTerrain] initState =
      runServers (10, 1, 2) "t" 2 30 net404 [stamenTerrain]
        (download_tile_from_server (10, 1, 2) cartoLight "t" 2 30 net404
          initState).2 :=
  c2_amended (10, 1, 2) cartoLight [stamenTerrain] "t" 2 30 net404 initState 404
    (by decide) (by decide) (by decide) (by decide)
    (fun t _ => ⟨"404 Client Error", rfl⟩)

/-! ### C3 — backoff amounts and retry cap -/

/-- C3 counterexample: the claim says the client sleeps exactly
`backoffBase × attemptIndex` seconds (backoffBase 1.0) before each
retry, which for `retry_attempts = 3` with every attempt failing
predicts the sleep trace 1.0 s, 2.0 s — `[2, 4]` in half-seconds.  The
code instead sleeps 1.0 s in the exception handler (line 138) plus
`0.5 × attempt` s at the top of the loop (line 124), producing
1.0, 0.5, 1.0, 1.0 s — `[2, 1, 2, 2]` in half-seconds. -/
theorem c3_counterexample :
    (download_tile_from_server (10, 1, 2) cartoLight "t" 3 30 netBoom
      initState).2.sleeps = [2, 1, 2, 2] ∧
    ([2, 1, 2, 2] : List Nat) ≠ [2, 4] := by
  decide

/-- C3 amended: with every attempt failing, the per-server loop makes
exactly `retry_attempts` `session.get` calls, returns the error of the
final attempt instead of retrying further, and sleeps (half-second
units) `1.0` s after each failed non-final attempt followed by
`0.5 × k` s at the start of attempt `k`, i.e. the trace
`[2, 1, 2, 2, ...] = join of [2, k] for k = 1 .. retry_attempts - 1` —
linear, but not `1.0 × k`. -/
theorem c3_amended (tile : Tile) (sv : Server) (output_dir : String)
    (ra timeout : Nat) (net : Net) (s : DlState)
    (hra : 0 < ra)
    (hex : fileExists s.fs.files (tileFilename output_dir sv tile) = false)
    (hfail : ∀ t, t < ra →
      isFailure (net (formatUrl sv.url tile.1 tile.2.1 tile.2.2) t) = true) :
    (∃ m, (download_tile_from_server tile sv output_dir ra timeout net s).1 =
      some (.error m)) ∧
    ((download_tile_from_server tile sv output_dir ra timeout net s).2.calls).length =
      s.calls.length + ra ∧
    (download_tile_from_server tile sv output_dir ra timeout net s).2.sleeps =
      s.sleeps ++ ((List.range' 1 (ra - 1)).map (fun k => [2, k])).join := by
  obtain ⟨⟨m, hres⟩, hcalls, hsleeps⟩ :=
    loop_allfail net sv.name (formatUrl sv.url tile.1 tile.2.1 tile.2.2)
      (tileTag sv.name tile) ra hfail ra 0 (by omega) hra
  refine ⟨⟨m, ?_⟩, ?_, ?_⟩
  · rw [download_spec]
    simpa [serverResult, hex] using hres
  · rw [download_spec]
    simp [serverCalls, hex, hcalls]
  · rw [download_spec]
    simp only
    rw [serverSleeps, if_neg (by simp [hex])]
    rw [hsleeps]
    simp

/-- C3 amended, witnessed at a concrete input: `retry_attempts = 3`,
every request failing: 3 calls, final error returned, sleep trace
`[2, 1, 2, 2]` half-seconds. -/
theorem c3_witness :
    (∃ m, (download_tile_from_server (10, 1, 2) cartoLight "t" 3 30 netBoom
      initState).1 = some (.error m)) ∧
    ((download_tile_from_server (10, 1, 2) cartoLight "t" 3 30 netBoom
      initState).2.calls).length = initState.calls.length + 3 ∧
    (download_tile_from_server (10, 1, 2) cartoLight "t" 3 30 netBoom
      initState).2.sleeps =
      initState.sleeps ++ ((List.range' 1 (3 - 1)).map (fun k => [2, k])).join :=
  c3_amended (10, 1, 2) cartoLight "t" 3 30 netBoom initState
    (by decide) (by decide) (fun t _ => rfl)

/-! ### C4 — the all-failed outcome -/

/-- C4 counterexample: the claim says the all-failed outcome carries
every server's final error in server order.  With CartoDB Light enabled
alone and its attempt failing with message "boom", the per-server error
string is "Error: CartoDB Light/10/1/2 - boom", yet the resolver
returns the fixed string "All servers failed: 10/1/2" (line 160), which
does not contain the error text at all — the `result` of each failed
server is discarded at line 156. -/
theorem c4_counterexample :
    (download_tile_multi_server (10, 1, 2) cfgOne netBoom initState).1 =
      .allFailed "All servers failed: 10/1/2" ∧
    (download_tile_from_server (10, 1, 2) cartoLight "t" 1 30 netBoom
      initState).1 = some (.error "Error: CartoDB Light/10/1/2 - boom") ∧
    ¬ (List.IsInfix "boom".data "All servers failed: 10/1/2".data) := by
  decide

/-- C4 amended: if every enabled server's download fails, the resolver
returns the fixed string `All servers failed: {z}/{x}/{y}`; the
per-server error messages are discarded, not carried in the outcome
(and the file list is left unchanged). -/
theorem c4_amended (tile : Tile) (cfg : Config) (net : Net) (s : DlState)
    (h : ∀ sv ∈ enabledServers cfg, ∃ m,
      serverResult tile sv cfg.output_dir cfg.retry_attempts net s.fs.files =
        some (.error m)) :
    (download_tile_multi_server tile cfg net s).1 =
      .allFailed ("All servers failed: " ++ toString tile.1 ++ "/" ++
        toString tile.2.1 ++ "/" ++ toString tile.2.2) ∧
    (download_tile_multi_server tile cfg net s).2.fs.files = s.fs.files := by
  obtain ⟨h1, -, h3⟩ := runServers_allfail tile cfg.output_dir cfg.retry_attempts
    cfg.timeout net (enabledServers cfg) s h
  exact ⟨h1, h3⟩

/-- C4 amended, witnessed at a concrete input. -/
theorem c4_witness :
    (download_tile_multi_server (10, 1, 2) cfgOne netBoom initState).1 =
      .allFailed ("All servers failed: " ++ toString (10 : Nat) ++ "/" ++
        toString (1 : Int) ++ "/" ++ toString (2 : Int)) ∧
    (download_tile_multi_server (10, 1, 2) cfgOne netBoom initState).2.fs.files =
      initState.fs.files :=
  c4_amended (10, 1, 2) cfgOne netBoom initState (by
    intro sv hsv
    have he : enabledServers cfgOne = [cartoLight] := by decide
    rw [he, List.mem_singleton] at hsv
    subst hsv
    exact ⟨"Error: CartoDB Light/10/1/2 - boom", by decide⟩)

/-! ### C5 — idempotence -/

/-- C5 counterexample: the claim concludes that a second run performs
zero network requests for every tile that succeeded on the first run.
With CartoDB Light always failing and Stamen Terrain succeeding
(`retry_attempts = 1`), the first run downloads the tile from Stamen
Terrain; the second run, started from the filesystem the first run
produced, still issues 1 network request (to CartoDB Light, whose file
does not exist) before finding Stamen Terrain's copy. -/
theorem c5_counterexample :
    (download_tile_multi_server (10, 1, 2) cfgTwo netAB initState).1 =
      .ok (.downloaded "Downloaded: Stamen Terrain/10/1/2") ∧
    ((download_tile_multi_server (10, 1, 2) cfgTwo netAB
      { fs := (download_tile_multi_server (10, 1, 2) cfgTwo netAB initState).2.fs,
        calls := [], sleeps := [], checks := [] }).2.calls).length = 1 ∧
    (1 : Nat) ≠ 0 := by
  decide

/-- C5 amended: the per-tile existence check is only consulted
per-server: when the file of the FIRST enabled server exists, the
resolver returns `AlreadyExists` with zero network requests, zero
sleeps, and an unchanged file list.  A second run is request-free only
for tiles stored under the first enabled server; a tile that succeeded
through a later fallback server is still re-attempted against every
earlier server. -/
theorem c5_amended (tile : Tile) (cfg : Config) (net : Net) (s : DlState)
    (sv : Server) (rest : List Server)
    (hsplit : enabledServers cfg = sv :: rest)
    (hex : fileExists s.fs.files (tileFilename cfg.output_dir sv tile) = true) :
    (download_tile_multi_server tile cfg net s).1 =
      .ok (.alreadyExists ("Exists: " ++ tileTag sv.name tile)) ∧
    (download_tile_multi_server tile cfg net s).2.calls = s.calls ∧
    (download_tile_multi_server tile cfg net s).2.fs.files = s.fs.files ∧
    (download_tile_multi_server tile cfg net s).2.sleeps = s.sleeps := by
  have hres : serverResult tile sv cfg.output_dir cfg.retry_attempts net s.fs.files =
      some (.alreadyExists ("Exists: " ++ tileTag sv.name tile)) := by
    simp [serverResult, hex]
  have hfst : (download_tile_from_server tile sv cfg.output_dir cfg.retry_attempts
      cfg.timeout net s).1 = some (.alreadyExists ("Exists: " ++ tileTag sv.name tile)) := by
    rw [download_spec]; simpa using hres
  have hstep : download_tile_from_server tile sv cfg.output_dir cfg.retry_attempts
      cfg.timeout net s =
      (some (.alreadyExists ("Exists: " ++ tileTag sv.name tile)),
       (download_tile_from_server tile sv cfg.output_dir cfg.retry_attempts
         cfg.timeout net s).2) := by
    rw [Prod.ext_iff]; exact ⟨hfst, rfl⟩
  have hmulti : download_tile_multi_server tile cfg net s =
      (.ok (.alreadyExists ("Exists: " ++ tileTag sv.name tile)),
       (download_tile_from_server tile sv cfg.output_dir cfg.retry_attempts
         cfg.timeout net s).2) := by
    simp only [download_tile_multi_server, hsplit, runServers]
    rw [hstep]
    simp [isSuccess]
  rw [hmulti]
  refine ⟨rfl, ?_, ?_, ?_⟩ <;>
    rw [download_spec] <;>
    simp [serverCalls, serverSleeps, serverWrite, hex, pushFile]

/-- C5 amended, witnessed at a concrete input: the tile file of the
first enabled server is already on disk, so the resolver answers
`AlreadyExists` without any call or write. -/
theorem c5_witness :
    (download_tile_multi_server (10, 1, 2) cfgTwo netBoom
      { fs := ⟨[], [("t/CartoDB Light/10/1/2.png", "IMG")]⟩,
        calls := [], sleeps := [], checks := [] }).1 =
      .ok (.alreadyExists ("Exists: " ++ tileTag cartoLight.name (10, 1, 2))) ∧
    (download_tile_multi_server (10, 1, 2) cfgTwo netBoom
      { fs := ⟨[], [("t/CartoDB Light/10/1/2.png", "IMG")]⟩,
        calls := [], sleeps := [], checks := [] }).2.calls = [] ∧
    (download_tile_multi_server (10, 1, 2) cfgTwo netBoom
      { fs := ⟨[], [("t/CartoDB Light/10/1/2.png", "IMG")]⟩,
        calls := [], sleeps := [], checks := [] }).2.fs.files =
      [("t/CartoDB Light/10/1/2.png", "IMG")] ∧
    (download_tile_multi_server (10, 1, 2) cfgTwo netBoom
      { fs := ⟨[], [("t/CartoDB Light/10/1/2.png", "IMG")]⟩,
        calls := [], sleeps := [], checks := [] }).2.sleeps = [] :=
  c5_amended (10, 1, 2) cfgTwo netBoom
    { fs := ⟨[], [("t/CartoDB Light/10/1/2.png", "IMG")]⟩,
      calls := [], sleeps := [], checks := [] }
    cartoLight [stamenTerrain] (by decide) (by decide)

/-! ### C8 — worker-pool sizing -/

/-- C8 counterexample: the claim sizes the pool by the number of
*resolved* servers.  Line 214 uses `len(config['servers'])`, the raw
list of configured names: with one configured name matching no catalog
entry, the pool gets 1 × 2 = 2 workers while the claimed formula gives
0 × 2 = 0. -/
theorem c8_counterexample :
    total_workers cfgGhost = 2 ∧
    (enabledServers cfgGhost).length * cfgGhost.max_workers_per_server = 0 ∧
    (2 : Nat) ≠ 0 := by
  decide

/-- Filtering a mapped list has the same length as filtering through
the map. -/
theorem length_filter_map_eq {α β : Type} (f : α → β) (p : β → Bool) :
    ∀ l : List α, ((l.map f).filter p).length = (l.filter (fun x => p (f x))).length := by
  intro l
  induction l with
  | nil => rfl
  | cons a t ih =>
    simp only [List.map_cons, List.filter_cons]
    by_cases hp : p (f a) <;> simp [hp, ih]

/-- C8 amended: the pool is created with
`len(config['servers']) × max_workers_per_server` workers, counting the
raw configured names; this coincides with the claimed
`len(enabledServers) × max_workers_per_server` exactly when the
configured names are pairwise distinct and each resolves to a catalog
entry. -/
theorem c8_amended (cfg : Config)
    (hnodup : cfg.servers.Nodup)
    (hsub : ∀ n ∈ cfg.servers, n ∈ TILE_SERVERS.map Server.name) :
    total_workers cfg = (enabledServers cfg).length * cfg.max_workers_per_server := by
  suffices h : (enabledServers cfg).length = cfg.servers.length by
    rw [total_workers, h]
  have h1 : (enabledServers cfg).length =
      ((TILE_SERVERS.map Server.name).filter
        (fun n => cfg.servers.contains n)).length := by
    rw [enabledServers, length_filter_map_eq Server.name]
  rw [h1]
  have hnames : (TILE_SERVERS.map Server.name).Nodup := by decide
  have hperm : List.Perm
      ((TILE_SERVERS.map Server.name).filter (fun n => cfg.servers.contains n))
      cfg.servers := by
    refine (List.perm_ext_iff_of_nodup (List.Nodup.filter _ hnames) hnodup).mpr ?_
    intro a
    constructor
    · intro ha
      have := List.of_mem_filter ha
      simpa using this
    · intro ha
      refine List.mem_filter.mpr ⟨hsub a ha, ?_⟩
      simpa using ha
  exact hperm.length_eq

/-- C8 amended, witnessed at a concrete input: two distinct resolvable
names, 5 workers each: 10 total, matching the claimed formula. -/
theorem c8_witness :
    total_workers cfgTwo =
      (enabledServers cfgTwo).length * cfgTwo.max_workers_per_server :=
  c8_amended cfgTwo (by decide) (by decide)

/-! ### C9 — zero enabled servers -/

/-- C9: with no enabled server, the resolver returns the all-failed
outcome — whose message carries no error at all (its error list is
empty) — and the state is returned untouched: no existence check is
recorded, no call is made, no sleep, no directory and no file is
created, and the function is total (never raises). -/
theorem c9_no_servers (tile : Tile) (cfg : Config) (net : Net) (s : DlState)
    (h : enabledServers cfg = []) :
    download_tile_multi_server tile cfg net s =
      (.allFailed ("All servers failed: " ++ toString tile.1 ++ "/" ++
        toString tile.2.1 ++ "/" ++ toString tile.2.2), s) := by
  simp [download_tile_multi_server, h, runServers]

/-- C9 witnessed at a concrete input: a configuration with an empty
server list enables nothing, and the initial state comes back
unchanged. -/
theorem c9_witness :
    download_tile_multi_server (10, 1, 2) cfgNone netBoom initState =
      (.allFailed ("All servers failed: " ++ toString (10 : Nat) ++ "/" ++
        toString (1 : Int) ++ "/" ++ toString (2 : Int)), initState) :=
  c9_no_servers (10, 1, 2) cfgNone netBoom initState (by decide)

/-! ### C10 — directory creation on every call -/

/-- C10: every `download_tile_from_server` call runs
`os.makedirs(tile_path, exist_ok=True)` (line 113) before the existence
check (line 117) and before any network request (line 127), so the
directory `{output_dir}/{server}/{zoom}/{x}` is in the resulting
filesystem whatever the outcome — tile already present, download
succeeded, every retry failed, or `retry_attempts = 0` with nothing
written (in the embedding the directory is added to the state before
the existence check and the retry loop by construction). -/
theorem c10_dir_created (tile : Tile) (server : Server) (output_dir : String)
    (ra timeout : Nat) (net : Net) (s : DlState) :
    tileDir output_dir server tile ∈
      (download_tile_from_server tile server output_dir ra timeout net s).2.fs.dirs := by
  rw [download_spec]
  simp only [mkdirs]
  by_cases hd : tileDir output_dir server tile ∈ s.fs.dirs <;> simp [hd]

/-! ### C6 — projection range -/

/-- C6 counterexample: the claim admits any longitude in [-180, 180].
At the "valid" input lat 0 (strictly inside the Mercator range),
lon = 180, zoom 0, the projection gives x = int((180+180)/360 * 1) = 1,
which violates x < 2^0 = 1: the right longitude edge maps to tile index
2^zoom, outside [0, 2^zoom). -/
theorem c6_counterexample :
    |(0:ℝ)| < maxMercatorLat ∧ (-180 ≤ (180:ℝ) ∧ (180:ℝ) ≤ 180) ∧ (0:ℕ) ≥ 0 ∧
    (deg2num 0 180 0).1 = 1 ∧ ¬ ((deg2num 0 180 0).1 < 2 ^ (0:ℕ)) := by
  have hx : (deg2num (0:ℝ) 180 0).1 = 1 := by
    simp only [deg2num, pyInt]
    norm_num
  refine ⟨by simpa using maxMercatorLat_pos, by norm_num, le_refl 0, hx, ?_⟩
  rw [hx]
  norm_num

/-- C6 amended: for latitude strictly inside the Web Mercator range and
longitude in the half-open interval [-180, 180), `deg2num` returns
x and y with 0 ≤ x < 2^zoom and 0 ≤ y < 2^zoom (at lon = 180 exactly,
x equals 2^zoom). -/
theorem c6_amended (lat lon : ℝ) (zoom : ℕ)
    (hlat : |lat| < maxMercatorLat)
    (hlon1 : -180 ≤ lon) (hlon2 : lon < 180) :
    0 ≤ (deg2num lat lon zoom).1 ∧ (deg2num lat lon zoom).1 < 2 ^ zoom ∧
    0 ≤ (deg2num lat lon zoom).2 ∧ (deg2num lat lon zoom).2 < 2 ^ zoom := by
  have hpi := Real.pi_pos
  have hn : (0:ℝ) < 2 ^ zoom := by positivity
  have hcast : ((2 ^ zoom : ℤ) : ℝ) = 2 ^ zoom := by push_cast; ring
  have hvx0 : 0 ≤ (lon + 180) / 360 * (2:ℝ) ^ zoom := by
    have : (0:ℝ) ≤ (lon + 180) / 360 := by linarith
    positivity
  have hvx1 : (lon + 180) / 360 * (2:ℝ) ^ zoom < 2 ^ zoom := by
    have h1 : (lon + 180) / 360 < 1 := by linarith
    calc (lon + 180) / 360 * (2:ℝ) ^ zoom < 1 * 2 ^ zoom := by
          exact mul_lt_mul_of_pos_right h1 hn
      _ = 2 ^ zoom := one_mul _
  set a := Real.arsinh (Real.tan (lat * Real.pi / 180)) with ha
  have hs : (0:ℝ) < Real.sinh Real.pi := by positivity
  have harc2 : Real.arctan (Real.sinh Real.pi) < Real.pi / 2 :=
    Real.arctan_lt_pi_div_two _
  have hlatrad : |lat * Real.pi / 180| < Real.arctan (Real.sinh Real.pi) := by
    have h1 : |lat * Real.pi / 180| = |lat| * (Real.pi / 180) := by
      rw [abs_div, abs_mul, abs_of_pos hpi, abs_of_pos (by norm_num : (0:ℝ) < 180)]
      ring
    rw [h1]
    have h2 : |lat| * (Real.pi / 180) < maxMercatorLat * (Real.pi / 180) := by
      apply mul_lt_mul_of_pos_right hlat
      positivity
    calc |lat| * (Real.pi / 180) < maxMercatorLat * (Real.pi / 180) := h2
      _ = Real.arctan (Real.sinh Real.pi) := by
          unfold maxMercatorLat; field_simp
  have hmem : lat * Real.pi / 180 ∈ Set.Ioo (-(Real.pi/2)) (Real.pi/2) := by
    constructor
    · have := abs_lt.mp hlatrad
      nlinarith [this.1, harc2]
    · have := abs_lt.mp hlatrad
      nlinarith [this.2, harc2]
  have hmemU : Real.arctan (Real.sinh Real.pi) ∈ Set.Ioo (-(Real.pi/2)) (Real.pi/2) := by
    constructor
    · have h2 : 0 < Real.arctan (Real.sinh Real.pi) := by
        have := Real.arctan_strictMono hs
        rwa [Real.arctan_zero] at this
      linarith
    · exact harc2
  have hmemL : -Real.arctan (Real.sinh Real.pi) ∈ Set.Ioo (-(Real.pi/2)) (Real.pi/2) := by
    constructor
    · simpa using neg_lt_neg harc2
    · have h2 : 0 < Real.arctan (Real.sinh Real.pi) := by
        have := Real.arctan_strictMono hs
        rwa [Real.arctan_zero] at this
      linarith
  have htanU : Real.tan (lat * Real.pi / 180) < Real.sinh Real.pi := by
    have := Real.strictMonoOn_tan hmem hmemU (abs_lt.mp hlatrad).2
    rwa [Real.tan_arctan] at this
  have htanL : -Real.sinh Real.pi < Real.tan (lat * Real.pi / 180) := by
    have := Real.strictMonoOn_tan hmemL hmem (by
      have := (abs_lt.mp hlatrad).1; linarith)
    rwa [Real.tan_neg, Real.tan_arctan] at this
  have haU : a < Real.pi := by
    have := Real.arsinh_lt_arsinh.mpr htanU
    rwa [Real.arsinh_sinh] at this
  have haL : -Real.pi < a := by
    have h1 : Real.arsinh (-Real.sinh Real.pi) < a :=
      Real.arsinh_lt_arsinh.mpr htanL
    rwa [← Real.sinh_neg, Real.arsinh_sinh] at h1
  have hvy0 : 0 < (1 - a / Real.pi) / 2 * (2:ℝ) ^ zoom := by
    have h1 : a / Real.pi < 1 := (div_lt_one hpi).mpr haU
    have h2 : 0 < (1 - a / Real.pi) / 2 := by linarith
    positivity
  have hvy1 : (1 - a / Real.pi) / 2 * (2:ℝ) ^ zoom < 2 ^ zoom := by
    have h1 : -1 < a / Real.pi := by
      rw [neg_lt, ← neg_div]
      exact (div_lt_iff₀ hpi).mpr (by nlinarith)
    have h2 : (1 - a / Real.pi) / 2 < 1 := by linarith
    calc (1 - a / Real.pi) / 2 * (2:ℝ) ^ zoom < 1 * 2 ^ zoom :=
          mul_lt_mul_of_pos_right h2 hn
      _ = 2 ^ zoom := one_mul _
  refine ⟨?_, ?_, ?_, ?_⟩
  · simp only [deg2num, pyInt, if_pos hvx0]
    exact Int.floor_nonneg.mpr hvx0
  · simp only [deg2num, pyInt, if_pos hvx0]
    exact Int.floor_lt.mpr (by rw [hcast]; exact hvx1)
  · simp only [deg2num, pyInt, if_pos (le_of_lt hvy0)]
    exact Int.floor_nonneg.mpr (le_of_lt hvy0)
  · simp only [deg2num, pyInt, if_pos (le_of_lt hvy0)]
    exact Int.floor_lt.mpr (by rw [hcast]; exact hvy1)

/-- C6 amended, witnessed at lat 0, lon 0, zoom 0. -/
theorem c6_witness :
    0 ≤ (deg2num 0 0 0).1 ∧ (deg2num 0 0 0).1 < 2 ^ (0:ℕ) ∧
    0 ≤ (deg2num 0 0 0).2 ∧ (deg2num 0 0 0).2 < 2 ^ (0:ℕ) :=
  c6_amended 0 0 0 (by simpa using maxMercatorLat_pos) (by norm_num) (by norm_num)

/-! ### C7 — tile enumeration -/

/-- C7: for `min_zoom ≤ max_zoom` and a bbox whose projected corner
rectangle is proper at every zoom in range, `get_tiles_for_bbox` emits
exactly the tiles of the inclusive rectangle (membership), with, per
zoom level, `(maxX − minX + 1) × (maxY − minY + 1)` tiles (count), in
strictly increasing lexicographic order zoom-then-x-then-y (so with no
duplicates).  Determinism across calls is definitional: the embedding
is a pure function of its arguments. -/
theorem c7_enumeration (min_lon min_lat max_lon max_lat : ℝ) (mz Mz : ℕ)
    (hz : mz ≤ Mz)
    (hx : ∀ z, mz ≤ z → z ≤ Mz →
      (deg2num min_lat min_lon z).1 ≤ (deg2num max_lat max_lon z).1)
    (hy : ∀ z, mz ≤ z → z ≤ Mz →
      (deg2num max_lat max_lon z).2 ≤ (deg2num min_lat min_lon z).2) :
    (∀ z x y, (z, x, y) ∈ get_tiles_for_bbox (min_lon, min_lat, max_lon, max_lat) mz Mz ↔
      (mz ≤ z ∧ z ≤ Mz ∧
       (deg2num min_lat min_lon z).1 ≤ x ∧ x ≤ (deg2num max_lat max_lon z).1 ∧
       (deg2num max_lat max_lon z).2 ≤ y ∧ y ≤ (deg2num min_lat min_lon z).2)) ∧
    (∀ z, mz ≤ z → z ≤ Mz →
      (((get_tiles_for_bbox (min_lon, min_lat, max_lon, max_lat) mz Mz).countP
        (fun t => t.1 == z) : ℤ)) =
        ((deg2num max_lat max_lon z).1 - (deg2num min_lat min_lon z).1 + 1) *
        ((deg2num min_lat min_lon z).2 - (deg2num max_lat max_lon z).2 + 1)) ∧
    List.Pairwise tileLt (get_tiles_for_bbox (min_lon, min_lat, max_lon, max_lat) mz Mz) := by
  have tiles_eq : get_tiles_for_bbox (min_lon, min_lat, max_lon, max_lat) mz Mz =
      (List.range' mz (Mz + 1 - mz)).flatMap (fun zoom =>
        (intRange (deg2num min_lat min_lon zoom).1
            (deg2num max_lat max_lon zoom).1).flatMap (fun x =>
          (intRange (deg2num max_lat max_lon zoom).2
              (deg2num min_lat min_lon zoom).2).map (fun y => (zoom, x, y)))) := rfl
  have mem_block : ∀ (z' : ℕ) (t : ℕ × ℤ × ℤ),
      t ∈ (intRange (deg2num min_lat min_lon z').1
            (deg2num max_lat max_lon z').1).flatMap (fun x =>
          (intRange (deg2num max_lat max_lon z').2
              (deg2num min_lat min_lon z').2).map (fun y => (z', x, y))) →
      t.1 = z' ∧ (deg2num min_lat min_lon z').1 ≤ t.2.1 ∧
        t.2.1 ≤ (deg2num max_lat max_lon z').1 ∧
        (deg2num max_lat max_lon z').2 ≤ t.2.2 ∧
        t.2.2 ≤ (deg2num min_lat min_lon z').2 := by
    intro z' t ht
    obtain ⟨x', hx', ht⟩ := List.mem_flatMap.mp ht
    obtain ⟨y', hy', rfl⟩ := List.mem_map.mp ht
    rw [intRange_mem] at hx' hy'
    exact ⟨rfl, hx'.1, hx'.2, hy'.1, hy'.2⟩
  refine ⟨?_, ?_, ?_⟩
  · intro z x y
    rw [tiles_eq]
    constructor
    · intro ht
      obtain ⟨z', hz', hblock⟩ := List.mem_flatMap.mp ht
      obtain ⟨heq, h3, h4, h5, h6⟩ := mem_block z' _ hblock
      simp only at heq
      subst heq
      rw [List.mem_range'_1] at hz'
      exact ⟨hz'.1, by omega, h3, h4, h5, h6⟩
    · rintro ⟨h1, h2, h3, h4, h5, h6⟩
      refine List.mem_flatMap.mpr ⟨z, ?_, ?_⟩
      · rw [List.mem_range'_1]; omega
      · refine List.mem_flatMap.mpr ⟨x, ?_, ?_⟩
        · rw [intRange_mem]; exact ⟨h3, h4⟩
        · exact List.mem_map.mpr ⟨y, by rw [intRange_mem]; exact ⟨h5, h6⟩, rfl⟩
  · intro z hmz hMz
    rw [tiles_eq, countP_flatMap]
    have hcount : (List.range' mz (Mz + 1 - mz)).map (fun z' =>
        ((intRange (deg2num min_lat min_lon z').1
            (deg2num max_lat max_lon z').1).flatMap (fun x =>
          (intRange (deg2num max_lat max_lon z').2
              (deg2num min_lat min_lon z').2).map (fun y => (z', x, y)))).countP
          (fun t => t.1 == z)) =
        (List.range' mz (Mz + 1 - mz)).map (fun z' =>
          if z' = z then
            ((deg2num max_lat max_lon z).1 + 1 - (deg2num min_lat min_lon z).1).toNat *
            ((deg2num min_lat min_lon z).2 + 1 - (deg2num max_lat max_lon z).2).toNat
          else 0) := by
      apply List.map_congr_left
      intro z' hz'
      by_cases hzz : z' = z
      · subst hzz
        rw [if_pos rfl]
        rw [List.countP_eq_length.mpr]
        · rw [length_flatMap]
          rw [List.map_congr_left (fun x hx => by rw [List.length_map, intRange_length])]
          rw [sum_map_const, intRange_length]
        · intro t ht
          have := (mem_block z' t ht).1
          simpa using this
      · rw [if_neg hzz]
        rw [List.countP_eq_zero.mpr]
        intro t ht
        have := (mem_block z' t ht).1
        simp [this, hzz]
    rw [hcount]
    rw [sum_map_single _ z (List.nodup_range' mz (Mz + 1 - mz))
      (by rw [List.mem_range'_1]; omega) (fun u _ hu => by rw [if_neg hu])]
    rw [if_pos rfl]
    have h1 : 0 ≤ (deg2num max_lat max_lon z).1 + 1 - (deg2num min_lat min_lon z).1 := by
      have := hx z hmz hMz; omega
    have h2 : 0 ≤ (deg2num min_lat min_lon z).2 + 1 - (deg2num max_lat max_lon z).2 := by
      have := hy z hmz hMz; omega
    push_cast [Int.toNat_of_nonneg h1, Int.toNat_of_nonneg h2]
    ring
  · rw [tiles_eq]
    apply pairwise_flatMap
    · intro z' _
      apply pairwise_flatMap
      · intro x _
        apply List.Pairwise.map
        · intro y1 y2 hlt
          exact Or.inr ⟨rfl, Or.inr ⟨rfl, hlt⟩⟩
        · exact intRange_pairwise _ _
      · apply List.Pairwise.imp ?_ (intRange_pairwise _ _)
        intro x1 x2 hlt b hb b2 hb2
        obtain ⟨y1, _, rfl⟩ := List.mem_map.mp hb
        obtain ⟨y2, _, rfl⟩ := List.mem_map.mp hb2
        exact Or.inr ⟨rfl, Or.inl hlt⟩
    · apply List.Pairwise.imp ?_ (List.pairwise_lt_range' mz (Mz + 1 - mz))
      intro z1 z2 hlt b hb b2 hb2
      have h1 := (mem_block z1 b hb).1
      have h2 := (mem_block z2 b2 hb2).1
      exact Or.inl (by rw [h1, h2]; exact hlt)

/-- C7 witnessed at the degenerate bbox (0, 0, 0, 0) with zoom range
0..0, whose projected rectangle is trivially proper. -/
theorem c7_witness :
    (∀ z x y, (z, x, y) ∈ get_tiles_for_bbox (0, 0, 0, 0) 0 0 ↔
      (0 ≤ z ∧ z ≤ 0 ∧
       (deg2num 0 0 z).1 ≤ x ∧ x ≤ (deg2num 0 0 z).1 ∧
       (deg2num 0 0 z).2 ≤ y ∧ y ≤ (deg2num 0 0 z).2)) ∧
    (∀ z, 0 ≤ z → z ≤ 0 →
      (((get_tiles_for_bbox (0, 0, 0, 0) 0 0).countP (fun t => t.1 == z) : ℤ)) =
        ((deg2num 0 0 z).1 - (deg2num 0 0 z).1 + 1) *
        ((deg2num 0 0 z).2 - (deg2num 0 0 z).2 + 1)) ∧
    List.Pairwise tileLt (get_tiles_for_bbox (0, 0, 0, 0) 0 0) :=
  c7_enumeration 0 0 0 0 0 0 (le_refl 0)
    (fun _ _ _ => le_refl _) (fun _ _ _ => le_refl _)

end TileMap
